import Mathlib

/-!
Shallow embedding of the WhatsApp-automation pipeline
(backend intent parser, task manager, message store, webhook handler),
with theorems settling the specification claims.
-/

set_option autoImplicit false

namespace Automation

/-! ### String utilities

Python substring testing (`sub in s`), modelled on character lists. -/

/-- Does `sub` occur as a contiguous substring of the character list? -/
def subOccurs (sub : List Char) : List Char → Bool
  | [] => sub.isEmpty
  | c :: t => sub.isPrefixOf (c :: t) || subOccurs sub t

/-- Python `pattern in s`. -/
def strContains (s pattern : String) : Bool :=
  subOccurs pattern.data s.data

/-- Python `any(word in message_lower for word in kws)`. -/
def anyKeyword (ml : String) (kws : List String) : Bool :=
  kws.any (fun k => strContains ml k)

/-- Python `message.lower()`, modelled characterwise (all inputs considered
here are ASCII, where `str.lower` and `Char.toLower` agree). -/
def strToLower (s : String) : String := String.mk (s.data.map Char.toLower)

/-! ### Intent parser (`backend/intent_parser.py`, `_parse_with_rules`) -/

/-- Keywords mapped to `copy_change` (intent_parser.py line 153). -/
def copyKeywords : List String :=
  ["change text", "change button", "change cta", "rename", "update text", "modify text"]

/-- Keywords mapped to `section_reorder` (line 155). -/
def reorderKeywords : List String := ["reorder", "move section", "swap"]

/-- Keywords mapped to `color_change` (line 157). -/
def colorKeywords : List String := ["color", "theme", "background"]

/-- Keywords mapped to `seo_update` (line 159). -/
def seoKeywords : List String := ["seo", "meta", "title tag", "description tag"]

/-- Keywords mapped to `style_change` (line 161). -/
def styleKeywords : List String := ["style", "css", "padding", "margin"]

/-- The if/elif chain detecting the task type from the lowercased message
(intent_parser.py lines 150-162). -/
def detectTaskType (ml : String) : String :=
  if anyKeyword ml copyKeywords then "copy_change"
  else if anyKeyword ml reorderKeywords then "section_reorder"
  else if anyKeyword ml colorKeywords then "color_change"
  else if anyKeyword ml seoKeywords then "seo_update"
  else if anyKeyword ml styleKeywords then "style_change"
  else "component_edit"

/-- The closed enumeration `IntentParser.TASK_TYPES` (keys only). -/
def taskTypes : List String :=
  ["copy_change", "section_reorder", "color_change", "seo_update",
   "component_edit", "style_change", "add_content", "remove_content"]

/-- The dict `IntentParser.COMMON_SCOPES`, in insertion order. -/
def commonScopes : List (String × List String) :=
  [("hero", ["app/components/Hero.tsx", "components/Hero.tsx", "src/components/Hero.tsx"]),
   ("header", ["app/components/Header.tsx", "components/Header.tsx", "src/components/Header.tsx"]),
   ("footer", ["app/components/Footer.tsx", "components/Footer.tsx", "src/components/Footer.tsx"]),
   ("cta", ["app/components/CTA.tsx", "components/CTA.tsx", "src/components/CTA.tsx"]),
   ("nav", ["app/components/Nav.tsx", "components/Navigation.tsx", "src/components/Nav.tsx"]),
   ("pricing", ["app/components/Pricing.tsx", "components/Pricing.tsx"]),
   ("features", ["app/components/Features.tsx", "components/Features.tsx"]),
   ("seo", ["app/layout.tsx", "pages/_document.tsx", "src/app/layout.tsx"]),
   ("colors", ["tailwind.config.js", "tailwind.config.ts", "styles/globals.css"])]

/-- The scope-detection loop (lines 164-171): for each key whose name occurs in
the lowercased message, extend the scope with the first file of its list;
fall back to the default file when nothing matched. -/
def detectScope (ml : String) : List String :=
  let scope := commonScopes.foldl
    (fun acc kv => if strContains ml kv.1 then acc ++ kv.2.take 1 else acc) []
  if scope.isEmpty then ["app/components/Hero.tsx"] else scope

/-- Base safety rules (`_generate_rules`, lines 193-197). -/
def baseRules : List String :=
  ["Do not change layout structure",
   "Do not remove existing functionality",
   "Preserve all existing imports"]

/-- Type-specific extra rules (`_generate_rules`, lines 199-225);
types absent from the dict get no extra rules. -/
def typeRules (taskType : String) : List String :=
  if taskType = "copy_change" then
    ["Only modify text content", "Do not touch styles or classes", "Keep the same element types"]
  else if taskType = "color_change" then
    ["Only modify color values", "Keep the same variable names", "Do not change other style properties"]
  else if taskType = "seo_update" then
    ["Only modify meta tags", "Keep valid HTML structure", "Do not change page content"]
  else if taskType = "section_reorder" then
    ["Only change component order", "Do not modify component internals", "Keep all props intact"]
  else if taskType = "style_change" then
    ["Only modify style properties", "Keep responsive breakpoints", "Do not change structure"]
  else []

/-- The function `_generate_rules`: base rules plus the type-specific additions. -/
def generateRules (taskType : String) : List String :=
  baseRules ++ typeRules taskType

/-- The auto-commit whitelist of lines 177 and 245:
`task_type in ["copy_change", "color_change", "seo_update"]`. -/
def safeTypes : List String := ["copy_change", "color_change", "seo_update"]

/-- The descriptor produced by classification.  Confidence is an exact
rational standing for the Python float (all literals are exact decimals). -/
structure Intent where
  type : String
  description : String
  scope : List String
  rules : List String
  auto_commit : Bool
  confidence : ℚ
deriving DecidableEq

/-- The function `_parse_with_rules` (lines 144-189).  `list(set(scope))` is modelled as
first-occurrence deduplication; Python set order is unspecified, and every
scope this development evaluates concretely is a singleton, where all
orders agree. -/
def parseWithRules (message : String) : Intent :=
  let ml := strToLower message
  let taskType := detectTaskType ml
  let scope := detectScope ml
  let rules := generateRules taskType
  let auto_commit := safeTypes.contains taskType
  let confidence : ℚ := if scope.isEmpty then 0.4 else 0.6
  { type := taskType, description := message, scope := scope.eraseDups,
    rules := rules, auto_commit := auto_commit, confidence := confidence }

/-- A possibly-partial intent as returned by the OpenAI path, before
`_validate_intent` normalises it; `none` fields are absent dict keys
(an explicitly empty scope list is also treated as missing, as in the code). -/
structure RawIntent where
  type : Option String
  description : Option String
  scope : Option (List String)
  rules : Option (List String)
  auto_commit : Option Bool
  confidence : Option ℚ
deriving DecidableEq

/-- The function `_validate_intent` (lines 229-254).  Note the order of operations in the
source: defaults for `rules` and `auto_commit` are derived from the type
before the final membership check replaces an unknown type by
`component_edit`. -/
def validateIntent (raw : RawIntent) : Intent :=
  let t0 := raw.type.getD "component_edit"
  let description := raw.description.getD "No description provided"
  let scope := match raw.scope with
    | none => ["app/components/Hero.tsx"]
    | some [] => ["app/components/Hero.tsx"]
    | some s => s
  let rules := raw.rules.getD (generateRules t0)
  let auto_commit := raw.auto_commit.getD (safeTypes.contains t0)
  let confidence := raw.confidence.getD 0.7
  let t := if taskTypes.contains t0 then t0 else "component_edit"
  { type := t, description := description, scope := scope,
    rules := rules, auto_commit := auto_commit, confidence := confidence }

/-! ### Task manager (`backend/task_manager.py`)

Task files live in a tasks directory, archived task files in an archive
subdirectory.  A directory is modelled as an association list from file
name to file content; a content that `json.load` would reject is
`FileEntry.corrupt`.  Operations that would raise in Python (reading a
corrupt file) return `Except.error ()`. -/

/-- The `result` dict written by `update_task_status`; the optional
structured payload is kept opaque as a string. -/
structure TaskResult where
  status : String
  details : String
  data : Option String
deriving DecidableEq

/-- A task record as persisted in a `CHANGE-<id>.json` file. -/
structure TaskRecord where
  id : String
  type : String
  description : String
  scope : List String
  rules : List String
  auto_commit : Bool
  status : String
  created_at : String
  updated_at : Option String
  source_message : String
  sender : String
  source_timestamp : String
  result : Option TaskResult
deriving DecidableEq

/-- Content of a task file: a readable record, or bytes `json.load` rejects. -/
inductive FileEntry where
  | good (t : TaskRecord)
  | corrupt
deriving DecidableEq

/-- A directory: file names mapped to contents. -/
abbrev Dir := List (String × FileEntry)

/-- First-match association-list lookup (file-name resolution). -/
def lookupAL {α : Type} : List (String × α) → String → Option α
  | [], _ => none
  | (k, v) :: rest, key => if k = key then some v else lookupAL rest key

/-- Remove every entry with the given file name (file deletion). -/
def eraseKey {α : Type} (key : String) : List (String × α) → List (String × α)
  | [] => []
  | (k, v) :: rest =>
      if k = key then eraseKey key rest else (k, v) :: eraseKey key rest

/-- Write a file: the new content replaces any entry with the same name. -/
def writeDir (d : Dir) (name : String) (e : FileEntry) : Dir :=
  (name, e) :: eraseKey name d

/-- The active and archive partitions of the task store. -/
structure StoreState where
  active : Dir
  archive : Dir
deriving DecidableEq

/-- The task file name, `CHANGE-<id>.json`. -/
def taskFileName (id : String) : String := "CHANGE-" ++ id ++ ".json"

/-- The statuses that trigger archival (task_manager.py line 132). -/
def terminalStatuses : List String := ["success", "failed", "manual_review"]

/-- The function `create_task` (lines 26-65).  The generated uuid fragment and timestamp
are passed as arguments; the source dict stores the same timestamp. -/
def createTask (s : StoreState) (id ts taskType description : String)
    (scope rules : List String) (auto_commit : Bool)
    (source_message sender : String) : TaskRecord × StoreState :=
  let t : TaskRecord :=
    { id := id, type := taskType, description := description, scope := scope,
      rules := rules, auto_commit := auto_commit, status := "pending",
      created_at := ts, updated_at := none, source_message := source_message,
      sender := sender, source_timestamp := ts, result := none }
  (t, { s with active := writeDir s.active (taskFileName id) (.good t) })

/-- The record rewrite performed by `update_task_status` (lines 120-126):
new status, fresh `updated_at`, and a filled `result`. -/
def updatedRecord (t : TaskRecord) (status details : String)
    (resultData : Option String) (ts : String) : TaskRecord :=
  let r : TaskResult := { status := status, details := details, data := resultData }
  { t with status := status, updated_at := some ts, result := some r }

/-- The function `update_task_status` (lines 102-135): missing active file returns false;
otherwise rewrite the record with the new status, timestamp and result,
then move it to the archive when the status is terminal. -/
def updateTaskStatus (s : StoreState) (id status details : String)
    (resultData : Option String) (ts : String) : Except Unit (Bool × StoreState) :=
  match lookupAL s.active (taskFileName id) with
  | none => .ok (false, s)
  | some .corrupt => .error ()
  | some (.good t) =>
    if terminalStatuses.contains status then
      .ok (true, { active := eraseKey (taskFileName id)
                     (writeDir s.active (taskFileName id)
                       (.good (updatedRecord t status details resultData ts))),
                   archive := writeDir s.archive (taskFileName id)
                     (.good (updatedRecord t status details resultData ts)) })
    else
      .ok (true, { s with active := (writeDir s.active (taskFileName id)
                     (.good (updatedRecord t status details resultData ts))) })

/-- The function `claim_task` (lines 163-167): update to `processing` with default
details and result. -/
def claimTask (s : StoreState) (id ts : String) : Except Unit (Bool × StoreState) :=
  updateTaskStatus s id "processing" "" none ts

/-- The function `delete_task` (lines 137-147): unlink the active file if it exists;
the archive is never consulted. -/
def deleteTask (s : StoreState) (id : String) : Bool × StoreState :=
  match lookupAL s.active (taskFileName id) with
  | some _ => (true, { s with active := eraseKey (taskFileName id) s.active })
  | none => (false, s)

/-- The function `get_task` (lines 86-100): read the active file, else the archive file,
else report not found. -/
def getTask (s : StoreState) (id : String) : Except Unit (Option TaskRecord) :=
  match lookupAL s.active (taskFileName id) with
  | some (.good t) => .ok (some t)
  | some .corrupt => .error ()
  | none =>
    match lookupAL s.archive (taskFileName id) with
    | some (.good t) => .ok (some t)
    | some .corrupt => .error ()
    | none => .ok none

/-- Stable insertion into a list sorted by `created_at` descending. -/
def insertByCreatedDesc (t : TaskRecord) : List TaskRecord → List TaskRecord
  | [] => [t]
  | u :: rest =>
      if t.created_at < u.created_at then u :: insertByCreatedDesc t rest
      else t :: u :: rest

/-- Python `tasks.sort(key=lambda t: t.get("created_at", ""), reverse=True)`:
a stable sort, newest first. -/
def sortByCreatedDesc : List TaskRecord → List TaskRecord
  | [] => []
  | t :: rest => insertByCreatedDesc t (sortByCreatedDesc rest)

/-- The per-file step of `list_tasks`: a record that loads is kept when
`status is None or task.get("status") == status`; unreadable files are
skipped. -/
def keepTask (statusFilter : Option String) (e : FileEntry) : Option TaskRecord :=
  match e with
  | .good t =>
      if statusFilter = none ∨ statusFilter = some t.status then some t else none
  | .corrupt => none

/-- The function `list_tasks` (lines 67-84): read every `CHANGE-*.json` in the active
directory, skipping records that fail to load, keep those matching the
optional status filter, and sort newest first.  (The archive is a
subdirectory and is not globbed.) -/
def listTasks (s : StoreState) (statusFilter : Option String) : List TaskRecord :=
  sortByCreatedDesc (s.active.filterMap (fun kv => keepTask statusFilter kv.2))

/-! ### Message store (`backend/message_store.py`) -/

/-- A stored message entry. -/
structure Message where
  id : String
  sender : String
  content : String
  type : String
  metadata : List (String × String)
  timestamp : String
deriving DecidableEq

/-- The retention cap of `store_message` (line 48). -/
def msgCap : Nat := 1000

/-- The function `store_message` (lines 25-52): append the new message, then keep only
the last 1000 entries.  The generated uuid and timestamp are arguments. -/
def storeMessage (msgs : List Message) (id sender content mtype ts : String)
    (metadata : List (String × String)) : List Message × Message :=
  let m : Message := { id := id, sender := sender, content := content,
                       type := mtype, metadata := metadata, timestamp := ts }
  let appended := msgs ++ [m]
  let kept :=
    if msgCap < appended.length then appended.drop (appended.length - msgCap)
    else appended
  (kept, m)

/-- The function `store_message` restricted to a prebuilt entry (same saved list). -/
def storeMessageRec (msgs : List Message) (m : Message) : List Message :=
  (storeMessage msgs m.id m.sender m.content m.type m.timestamp m.metadata).1

/-- A sequence of `store_message` calls, oldest first. -/
def storeSeq (msgs0 : List Message) (ms : List Message) : List Message :=
  ms.foldl storeMessageRec msgs0

/-! ### Webhook handler (`backend/main.py`, text-message path) -/

/-- The task-creation core of `whatsapp_webhook` (main.py lines 116-139)
on the rule-based path: an empty body or a confidence below 0.5 creates
no task; otherwise the parsed intent is persisted as a pending task. -/
def webhookHandleText (s : StoreState) (taskId ts sender body : String) :
    Option (TaskRecord × StoreState) :=
  if body = "" then none
  else
    let intent := parseWithRules body
    if intent.confidence < 0.5 then none
    else some (createTask s taskId ts intent.type intent.description
      intent.scope intent.rules intent.auto_commit body sender)

/-! ### Concrete inputs used by the claims -/

/-- The ASCII apostrophe, kept out of string literals. -/
def apostrophe : String := String.mk [Char.ofNat 39]

/-- The scenario input of the spec: `change the hero button text to
(quote)Book a Free Audit(quote)`. -/
def c2Message : String :=
  "change the hero button text to " ++ apostrophe ++ "Book a Free Audit" ++ apostrophe

/-- A message containing the `style` keyword and nothing of higher priority. -/
def styleOnlyMessage : String := "update the style"

/-- A message containing the `padding` style keyword only. -/
def paddingMessage : String := "make the padding bigger"

/-- A message containing a reorder keyword and a color keyword. -/
def swapBgMessage : String := "swap the background"

/-- A partial model reply with `auto_commit` missing, used as witness input. -/
def rawSample : RawIntent :=
  { type := some "copy_change", description := some "d", scope := some ["f.tsx"],
    rules := some [], auto_commit := none, confidence := some 0.9 }

/-- A message containing only a color keyword, used as witness input. -/
def bgBlueMessage : String := "make the background blue"

/-- The type-detection branches of `_parse_with_rules`, as an ordered
first-match table (the order in which the source tests its keyword sets). -/
def priorityTable : List (List String × String) :=
  [(copyKeywords, "copy_change"), (reorderKeywords, "section_reorder"),
   (colorKeywords, "color_change"), (seoKeywords, "seo_update"),
   (styleKeywords, "style_change")]

/-- Generic first-match scan over an ordered keyword table, defaulting to
`component_edit`. -/
def firstMatchType (ml : String) : List (List String × String) → String
  | [] => "component_edit"
  | (kws, ty) :: rest => if anyKeyword ml kws then ty else firstMatchType ml rest

/-- A message with no scope keyword, used as witness input. -/
def noScopeMessage : String := "qqq"

/-- A message with an explicit scope keyword, used as witness input. -/
def heroScopeMessage : String := "fix the hero"

/-- An active record used by the C8 witness. -/
def wRecA : TaskRecord :=
  ⟨"a1", "copy_change", "d", ["f"], [], true, "pending",
   "2024-01-01T00:00:00Z", none, "m", "w", "2024-01-01T00:00:00Z", none⟩

/-- A store whose active directory holds a corrupt file between two
readable ones, used by the C8 witness. -/
def wStore8 : StoreState :=
  ⟨[("CHANGE-a1.json", .good wRecA), ("bad.json", .corrupt),
    ("CHANGE-b2.json", .good { wRecA with id := "b2" })], []⟩

/-- The active record used by the C9 witness. -/
def wRec9 : TaskRecord :=
  ⟨"t9", "copy_change", "d", ["f"], [], true, "pending",
   "2024-01-01T00:00:00Z", none, "m", "w", "2024-01-01T00:00:00Z", none⟩

/-- The store used by the C9 witness. -/
def wStore9 : StoreState := ⟨[("CHANGE-t9.json", .good wRec9)], []⟩

/-- The active record used by the C10 witness. -/
def wRec10 : TaskRecord :=
  ⟨"t10", "seo_update", "d", ["f"], [], true, "pending",
   "2024-01-01T00:00:00Z", none, "m", "w", "2024-01-01T00:00:00Z", none⟩

/-- The store used by the C10 witness. -/
def wStore10 : StoreState := ⟨[("CHANGE-t10.json", .good wRec10)], []⟩

/-- The message used by the C7 witness. -/
def wMsg : Message := ⟨"i", "s", "c", "text", [], "t"⟩

/-! ### Helper lemmas about the classifier -/

theorem parse_type_eq (m : String) :
    (parseWithRules m).type = detectTaskType (strToLower m) := rfl

theorem parse_auto_eq (m : String) :
    (parseWithRules m).auto_commit = safeTypes.contains (detectTaskType (strToLower m)) := rfl

theorem parse_scope_eq (m : String) :
    (parseWithRules m).scope = (detectScope (strToLower m)).eraseDups := rfl

theorem contains_iff_mem (l : List String) (a : String) :
    l.contains a = true ↔ a ∈ l := by
  simp [List.contains]

theorem detectScope_isEmpty (ml : String) : (detectScope ml).isEmpty = false := by
  have h : ∀ l : List String,
      (if l.isEmpty then ["app/components/Hero.tsx"] else l).isEmpty = false := by
    intro l; cases l <;> simp
  exact h _

theorem parse_confidence (m : String) : (parseWithRules m).confidence = 0.6 := by
  show (if (detectScope (strToLower m)).isEmpty then (0.4 : ℚ) else 0.6) = 0.6
  rw [detectScope_isEmpty]
  simp

theorem scopeFold_no_match (ml : String) :
    ∀ (scopes : List (String × List String)) (acc : List String),
      (∀ kv ∈ scopes, strContains ml kv.1 = false) →
      scopes.foldl (fun acc kv => if strContains ml kv.1 then acc ++ kv.2.take 1 else acc) acc
        = acc := by
  intro scopes
  induction scopes with
  | nil => intro acc _; rfl
  | cons kv rest ih =>
    intro acc h
    have h0 : strContains ml kv.1 = false := h kv (List.mem_cons_self kv rest)
    simp only [List.foldl_cons, h0, Bool.false_eq_true, if_false]
    exact ih acc (fun u hu => h u (List.mem_cons_of_mem kv hu))

theorem detectScope_no_match (ml : String)
    (h : ∀ kv ∈ commonScopes, strContains ml kv.1 = false) :
    detectScope ml = ["app/components/Hero.tsx"] := by
  unfold detectScope
  rw [scopeFold_no_match ml commonScopes [] h]
  rfl

/-! ### Claims about the classifier -/

/-- Claim C1 (counterexample): the message `update the style` is classified
as `style_change`, yet `auto_commit` is false — the auto-commit whitelist of
the code omits `style_change`, so the claimed iff with the four-element set
fails. -/
theorem c1_auto_commit_counterexample :
    (parseWithRules styleOnlyMessage).type = "style_change" ∧
    (parseWithRules styleOnlyMessage).auto_commit = false := by
  constructor <;> decide

/-- Claim C1 (amended): for every message parsed by the heuristic
classifier, `auto_commit` is true iff the type is one of `copy_change`,
`color_change`, `seo_update`; it is false for every other enumerated type
(in particular `style_change`).  The `_validate_intent` default fill obeys
the same rule whenever the model reply omits `auto_commit`. -/
theorem auto_commit_iff_safe_type (m : String) :
    ((parseWithRules m).auto_commit = true ↔ (parseWithRules m).type ∈ safeTypes) ∧
    (∀ t, t ∈ taskTypes → t ∉ safeTypes →
      (parseWithRules m).type = t → (parseWithRules m).auto_commit = false) ∧
    (∀ raw : RawIntent, raw.auto_commit = none →
      ((validateIntent raw).auto_commit = true ↔ (validateIntent raw).type ∈ safeTypes)) := by
  refine ⟨?_, ?_, ?_⟩
  · rw [parse_auto_eq, parse_type_eq]
    exact contains_iff_mem _ _
  · intro t ht hns heq
    cases hA : (parseWithRules m).auto_commit with
    | false => rfl
    | true =>
      exfalso
      apply hns
      have h1 : safeTypes.contains (detectTaskType (strToLower m)) = true := by
        rw [← parse_auto_eq]; exact hA
      have h2 : (parseWithRules m).type ∈ safeTypes := by
        rw [parse_type_eq]; exact (contains_iff_mem _ _).1 h1
      exact heq ▸ h2
  · intro raw hnone
    show (raw.auto_commit.getD (safeTypes.contains (raw.type.getD "component_edit")) = true) ↔ _
    rw [hnone]
    simp only [Option.getD_none]
    set t0 := raw.type.getD "component_edit" with ht0
    show safeTypes.contains t0 = true ↔
      (if taskTypes.contains t0 then t0 else "component_edit") ∈ safeTypes
    by_cases hmem : taskTypes.contains t0 = true
    · rw [if_pos hmem]
      exact contains_iff_mem _ _
    · rw [if_neg hmem]
      constructor
      · intro hc
        exfalso
        apply hmem
        apply (contains_iff_mem _ _).2
        have hst : t0 = "copy_change" ∨ t0 = "color_change" ∨ t0 = "seo_update" := by
          simpa [safeTypes] using (contains_iff_mem _ _).1 hc
        rcases hst with h | h | h <;> rw [h] <;> decide
      · intro hc
        exfalso
        revert hc
        decide

/-- Witness for the amended C1 theorem at concrete inputs. -/
theorem auto_commit_iff_safe_type_witness :
    ("style_change" ∈ taskTypes ∧ "style_change" ∉ safeTypes ∧
     (parseWithRules styleOnlyMessage).type = "style_change" ∧
     (parseWithRules styleOnlyMessage).auto_commit = false) ∧
    (rawSample.auto_commit = none ∧
     ((validateIntent rawSample).auto_commit = true ↔
      (validateIntent rawSample).type ∈ safeTypes)) :=
  ⟨⟨by decide, by decide, by decide,
    (auto_commit_iff_safe_type styleOnlyMessage).2.1 "style_change"
      (by decide) (by decide) (by decide)⟩,
   ⟨rfl, (auto_commit_iff_safe_type "").2.2 rawSample rfl⟩⟩

/-- Claim C3 (counterexample): `make the padding bigger` contains a style
keyword and is classified `style_change`, but `auto_commit` is false, not
true as claimed. -/
theorem c3_style_counterexample :
    anyKeyword (strToLower paddingMessage) styleKeywords = true ∧
    (parseWithRules paddingMessage).type = "style_change" ∧
    (parseWithRules paddingMessage).auto_commit = false := by
  refine ⟨?_, ?_, ?_⟩ <;> decide

/-- Claim C3 (amended): if the lowercased message contains a color keyword
and no copy or reorder keyword, the type is `color_change` and
`auto_commit` is true; if it contains a style keyword and no copy, reorder,
color or SEO keyword, the type is `style_change` and `auto_commit` is
false. -/
theorem style_color_keyword_rules (m : String) :
    (anyKeyword (strToLower m) copyKeywords = false →
     anyKeyword (strToLower m) reorderKeywords = false →
     anyKeyword (strToLower m) colorKeywords = true →
     (parseWithRules m).type = "color_change" ∧ (parseWithRules m).auto_commit = true) ∧
    (anyKeyword (strToLower m) copyKeywords = false →
     anyKeyword (strToLower m) reorderKeywords = false →
     anyKeyword (strToLower m) colorKeywords = false →
     anyKeyword (strToLower m) seoKeywords = false →
     anyKeyword (strToLower m) styleKeywords = true →
     (parseWithRules m).type = "style_change" ∧ (parseWithRules m).auto_commit = false) := by
  constructor
  · intro h1 h2 h3
    have ht : detectTaskType (strToLower m) = "color_change" := by
      simp [detectTaskType, h1, h2, h3]
    exact ⟨by rw [parse_type_eq, ht], by rw [parse_auto_eq, ht]; decide⟩
  · intro h1 h2 h3 h4 h5
    have ht : detectTaskType (strToLower m) = "style_change" := by
      simp [detectTaskType, h1, h2, h3, h4, h5]
    exact ⟨by rw [parse_type_eq, ht], by rw [parse_auto_eq, ht]; decide⟩

/-- Witness for the amended C3 theorem at concrete inputs. -/
theorem style_color_keyword_rules_witness :
    (anyKeyword (strToLower bgBlueMessage) copyKeywords = false ∧
     anyKeyword (strToLower bgBlueMessage) reorderKeywords = false ∧
     anyKeyword (strToLower bgBlueMessage) colorKeywords = true ∧
     (parseWithRules bgBlueMessage).type = "color_change" ∧
     (parseWithRules bgBlueMessage).auto_commit = true) ∧
    (anyKeyword (strToLower styleOnlyMessage) styleKeywords = true ∧
     (parseWithRules styleOnlyMessage).type = "style_change" ∧
     (parseWithRules styleOnlyMessage).auto_commit = false) := by
  have hA := (style_color_keyword_rules bgBlueMessage).1 (by decide) (by decide) (by decide)
  have hB := (style_color_keyword_rules styleOnlyMessage).2
    (by decide) (by decide) (by decide) (by decide) (by decide)
  exact ⟨⟨by decide, by decide, by decide, hA.1, hA.2⟩, ⟨by decide, hB.1, hB.2⟩⟩

/-- Claim C5 (counterexample): `swap the background` matches no copy
keyword and matches a style/color keyword, so under the claimed priority
order (style/color before reorder) it would be classified in the
style/color category; the code classifies it `section_reorder`, because the
reorder branch precedes the color branch. -/
theorem c5_priority_counterexample :
    anyKeyword (strToLower swapBgMessage) copyKeywords = false ∧
    anyKeyword (strToLower swapBgMessage) colorKeywords = true ∧
    (parseWithRules swapBgMessage).type = "section_reorder" ∧
    ((parseWithRules swapBgMessage).type = "color_change" → False) ∧
    ((parseWithRules swapBgMessage).type = "style_change" → False) := by
  refine ⟨?_, ?_, ?_, ?_, ?_⟩ <;> decide

/-- Claim C5 (amended): the heuristic type detection is a first-match scan
of the lowercased message over the keyword sets in the order copy →
reorder → color → SEO → style, defaulting to `component_edit`; there are
no add-content or remove-content branches. -/
theorem type_detection_priority (m : String) :
    (parseWithRules m).type = firstMatchType (strToLower m) priorityTable ∧
    detectTaskType (strToLower m) = firstMatchType (strToLower m) priorityTable := by
  constructor <;> rfl

/-- Claim C6: a message matching no scope keyword gets the single default
file as scope, and its confidence is at or below that of any message with
an explicit scope match (both are 0.6 in the code). -/
theorem default_scope_and_confidence (m mExp : String)
    (h : ∀ kv ∈ commonScopes, strContains (strToLower m) kv.1 = false)
    (_hExp : ∃ kv ∈ commonScopes, strContains (strToLower mExp) kv.1 = true) :
    (parseWithRules m).scope = ["app/components/Hero.tsx"] ∧
    (parseWithRules m).confidence ≤ (parseWithRules mExp).confidence := by
  constructor
  · rw [parse_scope_eq, detectScope_no_match _ h]
    decide
  · rw [parse_confidence, parse_confidence]

/-- Witness for the C6 theorem at concrete inputs. -/
theorem default_scope_and_confidence_witness :
    (∀ kv ∈ commonScopes, strContains (strToLower noScopeMessage) kv.1 = false) ∧
    (∃ kv ∈ commonScopes, strContains (strToLower heroScopeMessage) kv.1 = true) ∧
    ((parseWithRules noScopeMessage).scope = ["app/components/Hero.tsx"] ∧
     (parseWithRules noScopeMessage).confidence ≤ (parseWithRules heroScopeMessage).confidence) :=
  ⟨by decide, by decide,
   default_scope_and_confidence noScopeMessage heroScopeMessage (by decide) (by decide)⟩

/-- Claim C2 (counterexample): the scenario message is classified
`component_edit`, not `copy_change`, and `auto_commit` is false — none of
the copy keywords (`change text`, `change button`, …) occur in
`change the hero button text to …`. -/
theorem c2_hero_button_counterexample :
    (parseWithRules c2Message).type = "component_edit" ∧
    ((parseWithRules c2Message).type = "copy_change" → False) ∧
    (parseWithRules c2Message).auto_commit = false := by
  refine ⟨?_, ?_, ?_⟩ <;> decide

/-- The webhook creates a task whenever the body is non-empty and the
parsed confidence reaches the 0.5 threshold. -/
theorem webhook_some (s : StoreState) (taskId ts sender body : String)
    (h1 : ¬ (body = ""))
    (h2 : ¬ ((parseWithRules body).confidence < 0.5)) :
    webhookHandleText s taskId ts sender body =
      some (createTask s taskId ts (parseWithRules body).type
        (parseWithRules body).description (parseWithRules body).scope
        (parseWithRules body).rules (parseWithRules body).auto_commit body sender) := by
  unfold webhookHandleText
  rw [if_neg h1, if_neg h2]

/-- Claim C2 (amended): for the scenario message the heuristic classifier
returns `type = component_edit`, the canonical hero scope, `auto_commit =
false`, and confidence 0.6 ≥ 0.5, so the webhook handler creates a task
with `status = pending`. -/
theorem hero_button_scenario (s : StoreState) (taskId ts sender : String) :
    ∃ t s2, webhookHandleText s taskId ts sender c2Message = some (t, s2) ∧
      t.type = "component_edit" ∧ t.auto_commit = false ∧
      t.scope = ["app/components/Hero.tsx"] ∧ t.status = "pending" ∧
      (0.5 : ℚ) ≤ (parseWithRules c2Message).confidence := by
  have hconf : ¬ ((parseWithRules c2Message).confidence < 0.5) := by
    rw [parse_confidence]; norm_num
  refine ⟨_, _, webhook_some s taskId ts sender c2Message (by decide) hconf, ?_, ?_, ?_, ?_, ?_⟩
  · exact (by decide : (parseWithRules c2Message).type = "component_edit")
  · exact (by decide : (parseWithRules c2Message).auto_commit = false)
  · exact (by decide : (parseWithRules c2Message).scope = ["app/components/Hero.tsx"])
  · rfl
  · rw [parse_confidence]; norm_num

/-! ### Helper lemmas about directories and the task store -/

theorem lookupAL_cons_self {α : Type} (k : String) (v : α) (l : List (String × α)) :
    lookupAL ((k, v) :: l) k = some v := by
  simp [lookupAL]

theorem eraseKey_cons_self {α : Type} (k : String) (v : α) (l : List (String × α)) :
    eraseKey k ((k, v) :: l) = eraseKey k l := by
  simp [eraseKey]

theorem eraseKey_idem {α : Type} (k : String) (l : List (String × α)) :
    eraseKey k (eraseKey k l) = eraseKey k l := by
  induction l with
  | nil => rfl
  | cons kv rest ih =>
    by_cases h : kv.1 = k
    · simp [eraseKey, h, ih]
    · simp [eraseKey, h, ih]

theorem lookupAL_eraseKey {α : Type} (k : String) (l : List (String × α)) :
    lookupAL (eraseKey k l) k = none := by
  induction l with
  | nil => rfl
  | cons kv rest ih =>
    by_cases h : kv.1 = k
    · simp [eraseKey, h, ih]
    · simp [eraseKey, lookupAL, h, ih]

theorem mem_of_mem_eraseKey {α : Type} {kv : String × α} {k : String} :
    ∀ {l : List (String × α)}, kv ∈ eraseKey k l → kv ∈ l := by
  intro l
  induction l with
  | nil => intro h; cases h
  | cons u rest ih =>
    obtain ⟨a, b⟩ := u
    intro h
    rw [eraseKey] at h
    by_cases ha : a = k
    · rw [if_pos ha] at h
      exact List.mem_cons_of_mem _ (ih h)
    · rw [if_neg ha] at h
      rcases List.mem_cons.1 h with h1 | h1
      · exact h1 ▸ List.mem_cons_self _ _
      · exact List.mem_cons_of_mem _ (ih h1)

theorem mem_insertByCreatedDesc {u t : TaskRecord} {l : List TaskRecord} :
    u ∈ insertByCreatedDesc t l ↔ u = t ∨ u ∈ l := by
  induction l with
  | nil => simp [insertByCreatedDesc]
  | cons v rest ih =>
    rw [insertByCreatedDesc]
    by_cases hc : t.created_at < v.created_at
    · rw [if_pos hc]
      simp only [List.mem_cons, ih]
      tauto
    · rw [if_neg hc]
      simp only [List.mem_cons]

theorem mem_sortByCreatedDesc {t : TaskRecord} {l : List TaskRecord} :
    t ∈ sortByCreatedDesc l ↔ t ∈ l := by
  induction l with
  | nil => simp [sortByCreatedDesc]
  | cons v rest ih =>
    rw [sortByCreatedDesc, mem_insertByCreatedDesc]
    simp only [List.mem_cons, ih]

/-- A file kept by the `list_tasks` filter is a readable record. -/
theorem keepTask_some {sf : Option String} {e : FileEntry} {u : TaskRecord}
    (h : keepTask sf e = some u) : e = FileEntry.good u := by
  cases e with
  | corrupt => simp [keepTask] at h
  | good t =>
    simp only [keepTask] at h
    split at h
    · injection h with h
      rw [h]
    · cases h

/-- Every task returned by `listTasks` comes from a readable active file. -/
theorem mem_listTasks_active {s : StoreState} {sf : Option String} {u : TaskRecord}
    (hu : u ∈ listTasks s sf) : ∃ kv ∈ s.active, kv.2 = FileEntry.good u := by
  unfold listTasks at hu
  rw [mem_sortByCreatedDesc] at hu
  rcases List.mem_filterMap.1 hu with ⟨kv, hkv, hf⟩
  exact ⟨kv, hkv, keepTask_some hf⟩

/-- Running `update_task_status` on a present active record with a terminal status:
returns true, drops the active file, writes the archive file. -/
theorem update_found_terminal (s : StoreState) (id status details : String)
    (rdata : Option String) (ts : String) (t : TaskRecord)
    (h : lookupAL s.active (taskFileName id) = some (.good t))
    (hterm : terminalStatuses.contains status = true) :
    updateTaskStatus s id status details rdata ts =
      .ok (true,
        ⟨eraseKey (taskFileName id) s.active,
         (taskFileName id, .good (updatedRecord t status details rdata ts)) ::
           eraseKey (taskFileName id) s.archive⟩) := by
  unfold updateTaskStatus
  rw [h]
  simp only [hterm, if_true, writeDir, eraseKey_cons_self, eraseKey_idem]

/-- Running `update_task_status` on a present active record with a non-terminal
status: returns true and rewrites the active file in place. -/
theorem update_found_nonterminal (s : StoreState) (id status details : String)
    (rdata : Option String) (ts : String) (t : TaskRecord)
    (h : lookupAL s.active (taskFileName id) = some (.good t))
    (hterm : terminalStatuses.contains status = false) :
    updateTaskStatus s id status details rdata ts =
      .ok (true,
        { s with active := (taskFileName id, .good (updatedRecord t status details rdata ts)) ::
            eraseKey (taskFileName id) s.active }) := by
  unfold updateTaskStatus
  rw [h]
  simp only [hterm, Bool.false_eq_true, if_false, writeDir]

/-- Running `update_task_status` without an active file: returns false, no change. -/
theorem update_missing (s : StoreState) (id status details : String)
    (rdata : Option String) (ts : String)
    (h : lookupAL s.active (taskFileName id) = none) :
    updateTaskStatus s id status details rdata ts = .ok (false, s) := by
  unfold updateTaskStatus
  rw [h]

/-- Reading with `get_task` resolves an archived record when no active file exists. -/
theorem getTask_archive (s : StoreState) (id : String) (t : TaskRecord)
    (h1 : lookupAL s.active (taskFileName id) = none)
    (h2 : lookupAL s.archive (taskFileName id) = some (.good t)) :
    getTask s id = .ok (some t) := by
  unfold getTask
  rw [h1, h2]

theorem ne_of_mem_eraseKey {α : Type} {kv : String × α} {k : String} :
    ∀ {l : List (String × α)}, kv ∈ eraseKey k l → kv.1 ≠ k := by
  intro l
  induction l with
  | nil => intro h; cases h
  | cons u rest ih =>
    obtain ⟨a, b⟩ := u
    intro h
    rw [eraseKey] at h
    by_cases ha : a = k
    · rw [if_pos ha] at h
      exact ih h
    · rw [if_neg ha] at h
      rcases List.mem_cons.1 h with h1 | h1
      · rw [h1]
        exact ha
      · exact ih h1

/-! ### Claims about the task store -/

/-- Claim C4: creating a task yields status `pending`; after updating to
`processing` and then to `success`, the record is still retrievable by
`get` with status `success`, no task with that id appears in the active
listing, and the archive holds the record under the same file name.  The
freshness hypothesis states that no active record already carries the new
id, which the uuid generation in `create_task` provides. -/
theorem task_lifecycle (s : StoreState) (id ts0 ts1 ts2 details : String)
    (rdata : Option String) (taskType description srcMsg sender : String)
    (scope rules : List String) (ac : Bool)
    (hFresh : ∀ kv ∈ s.active, ∀ u : TaskRecord, kv.2 = FileEntry.good u → u.id ≠ id) :
    (createTask s id ts0 taskType description scope rules ac srcMsg sender).1.status
      = "pending" ∧
    ∃ s1 s2 tf,
      updateTaskStatus (createTask s id ts0 taskType description scope rules ac srcMsg sender).2
        id "processing" "" none ts1 = .ok (true, s1) ∧
      updateTaskStatus s1 id "success" details rdata ts2 = .ok (true, s2) ∧
      getTask s2 id = .ok (some tf) ∧ tf.status = "success" ∧
      (∀ u ∈ listTasks s2 none, u.id ≠ id) ∧
      lookupAL s2.archive (taskFileName id) = some (.good tf) := by
  refine ⟨rfl, _, _, _,
    update_found_nonterminal _ id "processing" "" none ts1 _
      (lookupAL_cons_self _ _ _) (by decide),
    update_found_terminal _ id "success" details rdata ts2 _
      (lookupAL_cons_self _ _ _) (by decide),
    getTask_archive _ _ _ (lookupAL_eraseKey _ _) (lookupAL_cons_self _ _ _),
    rfl, ?_, lookupAL_cons_self _ _ _⟩
  intro u hu
  rcases mem_listTasks_active hu with ⟨kv, hkv, hgood⟩
  have hkv0 : kv ∈ eraseKey (taskFileName id)
      ((taskFileName id, FileEntry.good (updatedRecord ⟨id, taskType, description, scope,
          rules, ac, "pending", ts0, none, srcMsg, sender, ts0, none⟩ "processing" "" none ts1)) ::
        eraseKey (taskFileName id)
          ((taskFileName id, FileEntry.good ⟨id, taskType, description, scope, rules, ac,
              "pending", ts0, none, srcMsg, sender, ts0, none⟩) ::
            eraseKey (taskFileName id) s.active)) := hkv
  have hne : kv.1 ≠ taskFileName id := ne_of_mem_eraseKey hkv0
  rcases List.mem_cons.1 (mem_of_mem_eraseKey hkv0) with heq | hm2
  · exact absurd (by rw [heq]) hne
  · rcases List.mem_cons.1 (mem_of_mem_eraseKey hm2) with heq | hm4
    · exact absurd (by rw [heq]) hne
    · exact hFresh kv (mem_of_mem_eraseKey hm4) u hgood

/-- Witness for the C4 theorem: the full lifecycle run from the empty store. -/
theorem task_lifecycle_witness :
    (createTask ⟨[], []⟩ "t1" "ts0" "copy_change" "d" ["f.tsx"] [] true "m" "w").1.status
      = "pending" ∧
    ∃ s1 s2 tf,
      updateTaskStatus (createTask ⟨[], []⟩ "t1" "ts0" "copy_change" "d" ["f.tsx"] [] true "m" "w").2
        "t1" "processing" "" none "ts1" = .ok (true, s1) ∧
      updateTaskStatus s1 "t1" "success" "done" none "ts2" = .ok (true, s2) ∧
      getTask s2 "t1" = .ok (some tf) ∧ tf.status = "success" ∧
      (∀ u ∈ listTasks s2 none, u.id ≠ "t1") ∧
      lookupAL s2.archive (taskFileName "t1") = some (.good tf) :=
  task_lifecycle ⟨[], []⟩ "t1" "ts0" "ts1" "ts2" "done" none "copy_change" "d" "m" "w"
    ["f.tsx"] [] true (by simp)

/-- Claim C8: a corrupt record anywhere in the active directory is skipped
by `list_tasks` — the listing equals the listing without that file — and
every readable active record is returned. -/
theorem list_skips_corrupt :
    (∀ (pre post archiveDir : Dir) (name : String) (sf : Option String),
      listTasks ⟨pre ++ (name, FileEntry.corrupt) :: post, archiveDir⟩ sf =
        listTasks ⟨pre ++ post, archiveDir⟩ sf) ∧
    (∀ (s : StoreState) (t : TaskRecord),
      (∃ name, (name, FileEntry.good t) ∈ s.active) → t ∈ listTasks s none) := by
  constructor
  · intro pre post archiveDir name sf
    unfold listTasks
    simp [List.filterMap_append, keepTask]
  · intro s t h
    rcases h with ⟨name, hmem⟩
    unfold listTasks
    rw [mem_sortByCreatedDesc]
    exact List.mem_filterMap.2 ⟨(name, .good t), hmem, by simp [keepTask]⟩

/-- Witness for the C8 theorem at a concrete corrupted store. -/
theorem list_skips_corrupt_witness :
    (∃ name, (name, FileEntry.good wRecA) ∈ wStore8.active) ∧
    wRecA ∈ listTasks wStore8 none :=
  ⟨⟨"CHANGE-a1.json", by decide⟩,
   list_skips_corrupt.2 wStore8 wRecA ⟨"CHANGE-a1.json", by decide⟩⟩

/-- Claim C9: once a task reaches a terminal status and is archived,
`delete` of its id returns false (not found) and the archived record stays
in place — `delete_task` only consults the active directory. -/
theorem delete_ignores_archived (s : StoreState) (id status details ts : String)
    (rdata : Option String) (t : TaskRecord)
    (hterm : status ∈ terminalStatuses)
    (h : lookupAL s.active (taskFileName id) = some (.good t)) :
    ∃ s2, updateTaskStatus s id status details rdata ts = .ok (true, s2) ∧
      deleteTask s2 id = (false, s2) ∧
      lookupAL s2.archive (taskFileName id) =
        some (.good (updatedRecord t status details rdata ts)) := by
  have hc : terminalStatuses.contains status = true :=
    (contains_iff_mem terminalStatuses status).2 hterm
  refine ⟨_, update_found_terminal s id status details rdata ts t h hc, ?_, ?_⟩
  · have hnone : lookupAL (eraseKey (taskFileName id) s.active) (taskFileName id) = none :=
      lookupAL_eraseKey _ _
    unfold deleteTask
    rw [hnone]
  · exact lookupAL_cons_self _ _ _

/-- Witness for the C9 theorem at a concrete store. -/
theorem delete_ignores_archived_witness :
    "success" ∈ terminalStatuses ∧
    lookupAL wStore9.active (taskFileName "t9") = some (.good wRec9) ∧
    (∃ s2, updateTaskStatus wStore9 "t9" "success" "ok" none "2024-02" = .ok (true, s2) ∧
      deleteTask s2 "t9" = (false, s2) ∧
      lookupAL s2.archive (taskFileName "t9") =
        some (.good (updatedRecord wRec9 "success" "ok" none "2024-02"))) :=
  ⟨by decide, by decide,
   delete_ignores_archived wStore9 "t9" "success" "ok" "2024-02" none wRec9
     (by decide) (by decide)⟩

/-- Claim C10: after a terminal resolution archives a task, every
subsequent `update_task_status` or `claim_task` call for that id returns
false and leaves the whole store (in particular the archived record)
unchanged. -/
theorem archived_task_immutable (s : StoreState) (id status0 details0 ts0 : String)
    (rdata0 : Option String) (t : TaskRecord)
    (hterm : status0 ∈ terminalStatuses)
    (h : lookupAL s.active (taskFileName id) = some (.good t)) :
    ∃ s2, updateTaskStatus s id status0 details0 rdata0 ts0 = .ok (true, s2) ∧
      (∀ status details rdata ts,
        updateTaskStatus s2 id status details rdata ts = .ok (false, s2)) ∧
      (∀ ts, claimTask s2 id ts = .ok (false, s2)) ∧
      lookupAL s2.archive (taskFileName id) =
        some (.good (updatedRecord t status0 details0 rdata0 ts0)) := by
  have hc : terminalStatuses.contains status0 = true :=
    (contains_iff_mem terminalStatuses status0).2 hterm
  refine ⟨_, update_found_terminal s id status0 details0 rdata0 ts0 t h hc, ?_, ?_, ?_⟩
  · intro status details rdata ts
    exact update_missing _ _ _ _ _ _ (lookupAL_eraseKey _ _)
  · intro ts
    exact update_missing _ _ _ _ _ _ (lookupAL_eraseKey _ _)
  · exact lookupAL_cons_self _ _ _

/-- Witness for the C10 theorem at a concrete store. -/
theorem archived_task_immutable_witness :
    "manual_review" ∈ terminalStatuses ∧
    lookupAL wStore10.active (taskFileName "t10") = some (.good wRec10) ∧
    (∃ s2, updateTaskStatus wStore10 "t10" "manual_review" "check" none "2024-02"
        = .ok (true, s2) ∧
      (∀ status details rdata ts,
        updateTaskStatus s2 "t10" status details rdata ts = .ok (false, s2)) ∧
      (∀ ts, claimTask s2 "t10" ts = .ok (false, s2)) ∧
      lookupAL s2.archive (taskFileName "t10") =
        some (.good (updatedRecord wRec10 "manual_review" "check" none "2024-02"))) :=
  ⟨by decide, by decide,
   archived_task_immutable wStore10 "t10" "manual_review" "check" "2024-02" none wRec10
     (by decide) (by decide)⟩

/-! ### Claims about the message log -/

/-- One `store_message` call never leaves more than 1000 entries. -/
theorem storeMessage_length_le (msgs : List Message) (id sender content mtype ts : String)
    (md : List (String × String)) :
    ((storeMessage msgs id sender content mtype ts md).1).length ≤ 1000 := by
  simp only [storeMessage, msgCap]
  split
  next h => simp only [List.length_drop]; omega
  next h =>
    simp only [not_lt] at h
    exact h

/-- The step function `storeMessageRec` is the truncation operation on the appended list. -/
theorem storeMessageRec_eq (msgs : List Message) (m : Message) :
    storeMessageRec msgs m =
      if msgCap < (msgs ++ [m]).length then
        (msgs ++ [m]).drop ((msgs ++ [m]).length - msgCap)
      else msgs ++ [m] := rfl

/-- Folding `store_message` over any input sequence from the empty log
retains exactly the most recent 1000 entries. -/
theorem storeSeq_nil_eq (ms : List Message) :
    storeSeq [] ms = ms.drop (ms.length - msgCap) := by
  have hcap : msgCap = 1000 := rfl
  induction ms using List.reverseRecOn with
  | nil => rfl
  | append_singleton ms m ih =>
    have h1 : storeSeq [] (ms ++ [m]) = storeMessageRec (storeSeq [] ms) m := by
      unfold storeSeq
      rw [List.foldl_append]
      rfl
    rw [h1, ih, storeMessageRec_eq]
    by_cases hl : ms.length < 1000
    · have e1 : ms.length - msgCap = 0 := by rw [hcap]; omega
      rw [e1, List.drop_zero]
      rw [if_neg (show ¬ (msgCap < (ms ++ [m]).length) by
        simp only [List.length_append, List.length_singleton, hcap]; omega)]
      have e2 : (ms ++ [m]).length - msgCap = 0 := by
        simp only [List.length_append, List.length_singleton, hcap]; omega
      rw [e2, List.drop_zero]
    · have hx : (List.drop (ms.length - msgCap) ms).length = msgCap := by
        rw [List.length_drop, hcap]; omega
      rw [if_pos (show msgCap < (List.drop (ms.length - msgCap) ms ++ [m]).length by
        rw [List.length_append, hx]; simp)]
      have h3 : (List.drop (ms.length - msgCap) ms ++ [m]).length - msgCap = 1 := by
        rw [List.length_append, hx]; simp
      rw [h3]
      have h4 : (1 : ℕ) ≤ (List.drop (ms.length - msgCap) ms).length := by
        rw [hx, hcap]; omega
      rw [List.drop_append_of_le_length h4, List.drop_drop]
      have h5 : (ms ++ [m]).length - msgCap ≤ ms.length := by
        simp only [List.length_append, List.length_singleton, hcap]; omega
      rw [List.drop_append_of_le_length h5]
      have h6 : (ms ++ [m]).length - msgCap = ms.length - msgCap + 1 := by
        simp only [List.length_append, List.length_singleton, hcap]; omega
      rw [h6]

/-- Claim C7: after every append the log holds at most 1000 entries, and
appending 1001 messages to the empty log leaves exactly the last 1000 —
the oldest entry is evicted first. -/
theorem message_log_capped :
    (∀ (msgs : List Message) (id sender content mtype ts : String)
       (md : List (String × String)),
       ((storeMessage msgs id sender content mtype ts md).1).length ≤ 1000) ∧
    (∀ ms : List Message, ms.length = 1001 →
       storeSeq [] ms = ms.drop 1 ∧ (storeSeq [] ms).length = 1000) := by
  constructor
  · exact storeMessage_length_le
  · intro ms h
    constructor
    · rw [storeSeq_nil_eq, h]
      norm_num [msgCap]
    · rw [storeSeq_nil_eq, List.length_drop, h]
      norm_num [msgCap]

/-- Witness for the C7 theorem: 1001 identical appends to the empty log. -/
theorem message_log_capped_witness :
    (List.replicate 1001 wMsg).length = 1001 ∧
    storeSeq [] (List.replicate 1001 wMsg) = (List.replicate 1001 wMsg).drop 1 ∧
    (storeSeq [] (List.replicate 1001 wMsg)).length = 1000 :=
  ⟨by rw [List.length_replicate], (message_log_capped.2 _ (by rw [List.length_replicate])).1,
   (message_log_capped.2 _ (by rw [List.length_replicate])).2⟩

end Automation
